import Mathlib

/-!
Shallow embedding of `src/web_chat.py` (class `ChatApp` and the clear-button
wiring in `main`). External collaborators (`AskLLM`, `WebAppBase`,
`split_text_into_sentences`, `sentence_generator_loop`) are opaque services:
they enter the model as function parameters. Audio chunks are opaque payloads,
modelled by `Nat`. Python generators are modelled by their observable
behaviour: the finite list of values they yield, followed by either a normal
stop (`StopIteration`) or an exception carrying a message.
-/

namespace WebChat

/-- Message roles used by `ChatApp` (`"user"` / `"assistant"` strings in the
source). -/
inductive Role where
  | user
  | assistant
deriving DecidableEq, Repr

/-- One chat message: the Python dict `{"role": ..., "content": ...}`. -/
structure Message where
  role : Role
  content : String
deriving DecidableEq, Repr

/-- Opaque audio payload (an audio chunk tuple in the source). -/
abbrev Audio := Nat

/-- The mutable state of a `ChatApp` instance together with the pieces of
`llm_config` the methods write (`SYSTEM_MESSAGE`, `TEMPERATURE`) and the
opaque identity of the `self.llm` object.  `sentences` and `audio_segments`
are the two shared lists guarded by `self.lock`; `current_model`,
`current_voice` and `current_resolved_alias` come from `WebAppBase`. -/
structure AppState where
  ui_messages : List Message
  current_status : String
  sentences : List String
  audio_segments : List Audio
  current_model : String
  current_voice : String
  current_resolved_alias : String
  system_message : String
  llm : Nat
  llm_temperature : Rat
deriving DecidableEq, Repr

/-- One tuple yielded by `ChatApp.process_query`:
`(ui_messages, status, start_idx, end_idx, active, audio)`.  The status slot
holds the message string passed to `update_status`. -/
structure PQYield where
  messages : List Message
  status : String
  startIdx : Nat
  endIdx : Nat
  active : Bool
  audio : Option Audio
deriving DecidableEq, Repr

/-- Python's `str.strip()`: remove whitespace from both ends.  Implemented by
structural recursion on the character list so that the kernel can evaluate
it on concrete strings. -/
def strip (s : String) : String :=
  ⟨((s.data.dropWhile Char.isWhitespace).reverse.dropWhile Char.isWhitespace).reverse⟩

/-- `ChatApp.process_query(query, temperature)` (src/web_chat.py lines 66-142).
`split` embeds the external `self.split_text_into_sentences` (typed
`text -> sequence` by the collaborator interface) and `get_answer` embeds
`self.get_answer`, whose LLM call may raise (`Except.error` carries `str(e)`).
Returns the list of yielded tuples and the final state.  An empty stripped
query hits the early `return` inside the generator, which yields nothing and
changes nothing.  -/
def process_query (split : String → List String)
    (get_answer : String → Except String String)
    (st : AppState) (query : String) (temperature : Rat) :
    List PQYield × AppState :=
  let processed_query := strip query
  if processed_query = "" then
    ([], st)
  else
    -- with self.lock: self.sentences = []; self.audio_segments = []
    let st := { st with sentences := [], audio_segments := [] }
    let user_message : Message := ⟨Role.user, processed_query⟩
    let st := { st with ui_messages := st.ui_messages ++ [user_message] }
    let status1 := "Processing query with " ++ st.current_model ++ "..."
    let st := { st with current_status := status1 }
    let y1 : PQYield := ⟨st.ui_messages, status1, 0, 0, false, none⟩
    -- llm_config.TEMPERATURE = temperature
    let st := { st with llm_temperature := temperature }
    match get_answer processed_query with
    | Except.ok response =>
      let assistant_message : Message := ⟨Role.assistant, response⟩
      let st := { st with ui_messages := st.ui_messages ++ [assistant_message] }
      let status2 := "Processing response for TTS..."
      let st := { st with current_status := status2 }
      let y2 : PQYield := ⟨st.ui_messages, status2, 0, 0, false, none⟩
      let new_sentences := split response
      if new_sentences = [] then
        let status3 := "No valid sentences found in response."
        let st := { st with current_status := status3 }
        ([y1, y2, ⟨st.ui_messages, status3, 0, 0, false, none⟩], st)
      else
        let start_idx := 0
        let end_idx := new_sentences.length
        -- with self.lock: self.sentences = new_sentences
        let st := { st with sentences := new_sentences }
        let status4 :=
          "Starting audio generation for " ++ toString end_idx ++ " sentences..."
        let st := { st with current_status := status4 }
        ([y1, y2, ⟨st.ui_messages, status4, start_idx, end_idx, true, none⟩], st)
    | Except.error e =>
      let error_msg := "Error during query: " ++ e
      let st :=
        if st.ui_messages = [] ∨
            (st.ui_messages.getLast?.map Message.role ≠ some Role.assistant) then
          { st with ui_messages :=
              st.ui_messages ++ [⟨Role.assistant, "Error: " ++ e⟩] }
        else st
      let st := { st with current_status := error_msg }
      ([y1, ⟨st.ui_messages, error_msg, 0, 0, false, none⟩], st)

/-- One tuple yielded by `ChatApp.gradio_sentence_generator_wrapper`:
`(status, next_idx, active, audio)`. -/
structure WYield where
  status : String
  next_idx : Nat
  active : Bool
  audio : Option Audio
deriving DecidableEq, Repr

/-- How a run of the external `sentence_generator_loop` generator ends after
its yields: a normal `StopIteration`, or an exception carrying a message. -/
inductive GenEnd where
  | stop
  | raise (e : String)
deriving DecidableEq, Repr

/-- Observable behaviour of one run of the external
`self.sentence_generator_loop(...)` generator: the `(active, audio_tuple)`
pairs it yields, in order, and how it ends. -/
structure GenBehavior where
  items : List (Bool × Option Audio)
  ending : GenEnd
deriving DecidableEq, Repr

/-- `ChatApp.gradio_sentence_generator_wrapper(start_index, end_index, active,
temperature, speed_factor)` (src/web_chat.py lines 144-175).
`sentence_generator_loop` embeds the external base-class generator, as a
function from the call arguments to its observable behaviour.  When `active`
is falsy the wrapper yields a single tuple and returns without constructing
the generator.  Otherwise each item yielded by the generator produces one
wrapper yield with `next_idx` incremented by one ("Base loop doesn't yield
index, infer it"); `StopIteration` produces a final
`(current_status, next_idx, False, None)` yield, and any other exception a
final yield whose status is the `"Error during audio generation: ..."`
message installed by `update_status`. -/
def gradio_sentence_generator_wrapper
    (sentence_generator_loop : Nat → Nat → Bool → Rat → Rat → GenBehavior)
    (st : AppState) (start_index end_index : Nat) (active : Bool)
    (temperature speed_factor : Rat) : List WYield × AppState :=
  if !active then
    ([⟨st.current_status, start_index, false, none⟩], st)
  else
    let gen := sentence_generator_loop start_index end_index active
        temperature speed_factor
    let n := gen.items.length
    let itemYields : List WYield := (List.range n).map fun k =>
      let p := gen.items.getD k (false, none)
      ⟨st.current_status, start_index + k + 1, p.1, p.2⟩
    match gen.ending with
    | GenEnd.stop =>
      (itemYields ++ [⟨st.current_status, start_index + n, false, none⟩], st)
    | GenEnd.raise e =>
      let msg := "Error during audio generation: " ++ e
      (itemYields ++ [⟨msg, start_index + n, false, none⟩],
        { st with current_status := msg })

/-- The tuple returned by `ChatApp.clear_session`:
`(chatbot_val, status_update, audio_val, 0, False)`.  With the UI components
wired, `clear_ui` yields the values `[]` for the chatbot and `None` for the
audio player. -/
structure ClearReturn where
  chatbot_val : List Message
  status : String
  audio_val : Option Audio
  idx : Nat
  active : Bool
deriving DecidableEq, Repr

/-- `ChatApp.clear_session` (src/web_chat.py lines 177-192).  `superClear`
embeds the external `super().clear_session()` of `WebAppBase`, acting on the
two shared lists it owns.  The LLM history cleared via
`self.llm.history_manager.clear_history()` lives in the external `AskLLM`
object and is outside the modelled state. -/
def clear_session (superClear : List String × List Audio → List String × List Audio)
    (st : AppState) : AppState × ClearReturn :=
  let st := { st with ui_messages := [] }
  let cleared := superClear (st.sentences, st.audio_segments)
  let st := { st with sentences := cleared.1, audio_segments := cleared.2 }
  let status_update := "Session cleared. Ready. (Model: " ++ st.current_model
      ++ ", Voice: " ++ st.current_voice ++ ")"
  let st := { st with current_status := status_update }
  (st, ⟨[], status_update, none, 0, false⟩)

/-- The Gradio `gr.State` values wired in `main`:
`sentence_index`, `sentence_end_index`, `processing_active`. -/
structure UIState where
  sentence_index : Nat
  sentence_end_index : Nat
  processing_active : Bool
deriving DecidableEq, Repr

/-- The clear button's click binding (src/web_chat.py lines 379-389): the five
values returned by `clear_session` are written to
`[chatbot, status_output, audio_output, sentence_index, processing_active]`.
`sentence_end_index` is not among the outputs, so that `gr.State` keeps its
value. -/
def clear_btn_click
    (superClear : List String × List Audio → List String × List Audio)
    (st : AppState) (ui : UIState) : AppState × UIState :=
  let r := clear_session superClear st
  (r.1, { ui with sentence_index := r.2.idx, processing_active := r.2.active })

/-- `ChatApp.update_system_prompt(new_system_prompt)` (src/web_chat.py lines
194-209).  `mkLLM` embeds the external `AskLLM(resolved_model_alias=...,
config=llm_config)` constructor, which reads `SYSTEM_MESSAGE` from the config
and may raise.  The assignment `llm_config.SYSTEM_MESSAGE = ...` happens
before the constructor call and is not undone when the constructor raises. -/
def update_system_prompt (mkLLM : String → String → Except String Nat)
    (st : AppState) (new_system_prompt : String) : AppState :=
  let st := { st with system_message := strip new_system_prompt }
  match mkLLM st.current_resolved_alias st.system_message with
  | Except.ok l =>
    let status_update := "System prompt updated. Model: " ++ st.current_model
    { st with llm := l, current_status := status_update }
  | Except.error e =>
    let status_update := "Error updating system prompt: " ++ e
    { st with current_status := status_update }

/-- The initial value of `ChatApp.current_status` (class attribute, line 30). -/
def initial_status : String := ""

/-! Concrete instantiations used by witnesses. -/

/-- A concrete app state for witnesses. -/
def st0 : AppState :=
  ⟨[], "", [], [], "dans-personalityengine", "maya", "dans", "", 0, 0⟩

/-- A concrete splitter for witnesses: an empty response has no sentences,
any other response is a single sentence. -/
def split0 (s : String) : List String :=
  if s = "" then [] else [s]

/-- A concrete always-failing LLM call for witnesses. -/
def gaErr (e : String) : String → Except String String :=
  fun _ => Except.error e

/-- A concrete always-succeeding LLM call for witnesses. -/
def gaOk (r : String) : String → Except String String :=
  fun _ => Except.ok r

/-- A concrete sentence-generator behaviour for witnesses: two items then a
normal stop. -/
def loop0 : Nat → Nat → Bool → Rat → Rat → GenBehavior :=
  fun _ _ _ _ _ => ⟨[(true, some 5), (true, some 6)], GenEnd.stop⟩

/-- C5: if the stripped query text is empty, `process_query` yields no tuples
and leaves the whole state (messages, status, shared sentence and audio
lists) unchanged: the early `return` inside the generator produces no yield. -/
theorem process_query_empty_noop (split : String → List String)
    (ga : String → Except String String) (st : AppState) (q : String)
    (t : Rat) (hq : strip q = "") :
    process_query split ga st q t = ([], st) := by
  simp [process_query, hq]

theorem process_query_empty_noop_witness :
    (strip "  \t " = "") ∧ process_query split0 (gaErr "x") st0 "  \t " 0 = ([], st0) :=
  ⟨by decide, process_query_empty_noop split0 (gaErr "x") st0 "  \t " 0 (by decide)⟩

/-- C1: if the LLM call fails with message `e` on a non-empty stripped query,
`process_query` appends exactly one assistant-role error entry (after the
user entry) to `ui_messages`, and its final yielded tuple carries the
`"Error during query: ..."` status, `active = false`, and no audio. -/
theorem process_query_llm_error (split : String → List String)
    (ga : String → Except String String) (st : AppState) (q : String)
    (t : Rat) (e : String) (hq : strip q ≠ "")
    (he : ga (strip q) = Except.error e) :
    (process_query split ga st q t).2.ui_messages =
      st.ui_messages ++ [⟨Role.user, strip q⟩, ⟨Role.assistant, "Error: " ++ e⟩] ∧
    (process_query split ga st q t).1.getLast? =
      some ⟨st.ui_messages ++ [⟨Role.user, strip q⟩, ⟨Role.assistant, "Error: " ++ e⟩],
        "Error during query: " ++ e, 0, 0, false, none⟩ ∧
    (process_query split ga st q t).2.current_status = "Error during query: " ++ e := by
  simp [process_query, hq, he]

theorem process_query_llm_error_witness :
    (process_query split0 (gaErr "boom") st0 "hi" 0).2.ui_messages =
      [⟨Role.user, "hi"⟩, ⟨Role.assistant, "Error: boom"⟩] ∧
    (process_query split0 (gaErr "boom") st0 "hi" 0).1.getLast? =
      some ⟨[⟨Role.user, "hi"⟩, ⟨Role.assistant, "Error: boom"⟩],
        "Error during query: boom", 0, 0, false, none⟩ := by
  have h := process_query_llm_error split0 (gaErr "boom") st0 "hi" 0 "boom"
    (by decide) rfl
  exact ⟨h.1.trans (by decide), h.2.1.trans (by decide)⟩

/-- C4: if the response splits into zero sentences on a non-empty query, the
final yield has `active = false`, the `"No valid sentences found in
response."` status, cursor `(0, 0)` and no audio payload, and no yield of the
run carries any audio. -/
theorem process_query_no_sentences (split : String → List String)
    (ga : String → Except String String) (st : AppState) (q : String)
    (t : Rat) (resp : String) (hq : strip q ≠ "")
    (hr : ga (strip q) = Except.ok resp) (hs : split resp = []) :
    (process_query split ga st q t).1.getLast? =
      some ⟨st.ui_messages ++ [⟨Role.user, strip q⟩, ⟨Role.assistant, resp⟩],
        "No valid sentences found in response.", 0, 0, false, none⟩ ∧
    ∀ y ∈ (process_query split ga st q t).1, y.audio = none := by
  constructor
  · simp [process_query, hq, hr, hs]
  · intro y hy
    simp [process_query, hq, hr, hs] at hy
    rcases hy with h | h | h <;> simp [h]

theorem process_query_no_sentences_witness :
    (process_query split0 (gaOk "") st0 "hi" 0).1.getLast? =
      some ⟨[⟨Role.user, "hi"⟩, ⟨Role.assistant, ""⟩],
        "No valid sentences found in response.", 0, 0, false, none⟩ ∧
    ∀ y ∈ (process_query split0 (gaOk "") st0 "hi" 0).1, y.audio = none := by
  have h := process_query_no_sentences split0 (gaOk "") st0 "hi" 0 ""
    (by decide) rfl (by decide)
  exact ⟨h.1.trans (by decide), h.2⟩

/-- C8: if the response splits into `n ≥ 1` sentences on a non-empty query,
`process_query` stores exactly those sentences as the shared list and its
final yield carries cursor range `(0, n)`, `active = true` and no audio. -/
theorem process_query_starts_playback (split : String → List String)
    (ga : String → Except String String) (st : AppState) (q : String)
    (t : Rat) (resp : String) (hq : strip q ≠ "")
    (hr : ga (strip q) = Except.ok resp) (hs : split resp ≠ []) :
    (process_query split ga st q t).2.sentences = split resp ∧
    (process_query split ga st q t).1.getLast? =
      some ⟨st.ui_messages ++ [⟨Role.user, strip q⟩, ⟨Role.assistant, resp⟩],
        "Starting audio generation for " ++ toString (split resp).length
          ++ " sentences...",
        0, (split resp).length, true, none⟩ := by
  simp [process_query, hq, hr, hs]

theorem process_query_starts_playback_witness :
    (process_query split0 (gaOk "a b") st0 "hi" 0).2.sentences = ["a b"] ∧
    (process_query split0 (gaOk "a b") st0 "hi" 0).1.getLast? =
      some ⟨[⟨Role.user, "hi"⟩, ⟨Role.assistant, "a b"⟩],
        "Starting audio generation for 1 sentences...", 0, 1, true, none⟩ := by
  have h := process_query_starts_playback split0 (gaOk "a b") st0 "hi" 0 "a b"
    (by decide) rfl (by decide)
  exact ⟨h.1.trans (by decide), h.2.trans (by decide)⟩

/-- C10: on every non-whitespace query, `process_query` empties both shared
lists before anything else: its result does not depend on the previous
turn's `sentences` or `audio_segments`, the final `audio_segments` is empty,
and the final `sentences` is either empty or exactly the sentences split from
this turn's response. -/
theorem process_query_clears_shared (split : String → List String)
    (ga : String → Except String String) (st : AppState) (q : String)
    (t : Rat) (hq : strip q ≠ "") :
    process_query split ga st q t =
      process_query split ga { st with sentences := [], audio_segments := [] } q t ∧
    (process_query split ga st q t).2.audio_segments = [] ∧
    ((process_query split ga st q t).2.sentences = [] ∨
      ∃ resp, ga (strip q) = Except.ok resp ∧
        (process_query split ga st q t).2.sentences = split resp) := by
  refine ⟨by simp [process_query, hq], ?_, ?_⟩
  · cases hga : ga (strip q) with
    | ok resp =>
      by_cases hs : split resp = [] <;> simp [process_query, hq, hga, hs]
    | error e => simp [process_query, hq, hga]
  · cases hga : ga (strip q) with
    | ok resp =>
      by_cases hs : split resp = []
      · left; simp [process_query, hq, hga, hs]
      · right; exact ⟨resp, rfl, by simp [process_query, hq, hga, hs]⟩
    | error e => left; simp [process_query, hq, hga]

theorem process_query_clears_shared_witness :
    process_query split0 (gaOk "a b")
        { st0 with sentences := ["old"], audio_segments := [9] } "hi" 0 =
      process_query split0 (gaOk "a b") st0 "hi" 0 ∧
    (process_query split0 (gaOk "a b")
        { st0 with sentences := ["old"], audio_segments := [9] } "hi" 0).2.audio_segments = [] := by
  have h := process_query_clears_shared split0 (gaOk "a b")
    { st0 with sentences := ["old"], audio_segments := [9] } "hi" 0 (by decide)
  exact ⟨h.1, h.2.1⟩

/-- C6: invoked with the active flag false, the wrapper yields exactly one
tuple `(current_status, start_index, False, None)` and stops; the result does
not depend on the sentence generator at all (it is never constructed), and
the state is untouched. -/
theorem wrapper_inactive_single_yield
    (loop : Nat → Nat → Bool → Rat → Rat → GenBehavior) (st : AppState)
    (s eIdx : Nat) (t sp : Rat) :
    gradio_sentence_generator_wrapper loop st s eIdx false t sp =
      ([⟨st.current_status, s, false, none⟩], st) := by
  simp [gradio_sentence_generator_wrapper]

/-- C7: while the playback loop runs (active initially true), the k-th
yielded tuple (counting from 1) driven by the k-th item of the underlying
generator carries cursor index `start_index + k`: the index advances by
exactly one per item and is strictly monotonically increasing. -/
theorem wrapper_index_advances
    (loop : Nat → Nat → Bool → Rat → Rat → GenBehavior) (st : AppState)
    (s eIdx : Nat) (t sp : Rat) (k : Nat)
    (hk : k < (loop s eIdx true t sp).items.length) :
    (gradio_sentence_generator_wrapper loop st s eIdx true t sp).1.get? k =
      some ⟨st.current_status, s + k + 1,
        ((loop s eIdx true t sp).items.getD k (false, none)).1,
        ((loop s eIdx true t sp).items.getD k (false, none)).2⟩ := by
  cases hend : (loop s eIdx true t sp).ending with
  | stop =>
    simp only [gradio_sentence_generator_wrapper, Bool.not_true, hend]
    rw [if_neg Bool.false_ne_true, List.get?_append (by simpa using hk),
      List.get?_map, List.get?_range hk]
    rfl
  | raise e =>
    simp only [gradio_sentence_generator_wrapper, Bool.not_true, hend]
    rw [if_neg Bool.false_ne_true, List.get?_append (by simpa using hk),
      List.get?_map, List.get?_range hk]
    rfl

theorem wrapper_index_advances_witness :
    (1 < (loop0 0 2 true 0 0).items.length) ∧
    (gradio_sentence_generator_wrapper loop0 st0 0 2 true 0 0).1.get? 1 =
      some ⟨st0.current_status, 2, true, some 6⟩ := by
  have h := wrapper_index_advances loop0 st0 0 2 0 0 1 (by decide)
  exact ⟨by decide, h.trans (by decide)⟩

/-- C3: the final tuple the wrapper yields — after the underlying generator
stops or raises — carries `active = false`; the final tuple `process_query`
yields after an LLM exception carries `active = false`; and when the error
handler runs, the last entry of `ui_messages` is an assistant-role entry
whose content carries the error text. -/
theorem active_false_on_stop_or_error
    (loop : Nat → Nat → Bool → Rat → Rat → GenBehavior) (st : AppState)
    (s eIdx : Nat) (t sp : Rat)
    (split : String → List String) (ga : String → Except String String)
    (st2 : AppState) (q : String) (t2 : Rat) (e : String)
    (hq : strip q ≠ "") (he : ga (strip q) = Except.error e) :
    ((gradio_sentence_generator_wrapper loop st s eIdx true t sp).1.getLast?.map
        WYield.active = some false) ∧
    ((process_query split ga st2 q t2).1.getLast?.map PQYield.active = some false) ∧
    (process_query split ga st2 q t2).2.ui_messages.getLast? =
      some ⟨Role.assistant, "Error: " ++ e⟩ := by
  refine ⟨?_, ?_, ?_⟩
  · cases hend : (loop s eIdx true t sp).ending <;>
      simp [gradio_sentence_generator_wrapper, hend, List.getLast?_concat]
  · simp [process_query, hq, he]
  · simp [process_query, hq, he]

theorem active_false_on_stop_or_error_witness :
    ((gradio_sentence_generator_wrapper loop0 st0 0 2 true 0 0).1.getLast?.map
        WYield.active = some false) ∧
    ((process_query split0 (gaErr "boom") st0 "hi" 0).1.getLast?.map
        PQYield.active = some false) ∧
    (process_query split0 (gaErr "boom") st0 "hi" 0).2.ui_messages.getLast? =
      some ⟨Role.assistant, "Error: boom"⟩ := by
  have h := active_false_on_stop_or_error loop0 st0 0 2 0 0 split0
    (gaErr "boom") st0 "hi" 0 "boom" (by decide) rfl
  exact h

/-- A concrete pre-clear state: one message in the chat, a non-initial
status, three sentences from the previous turn. -/
def stC2 : AppState :=
  ⟨[⟨Role.user, "hi"⟩], "Starting audio generation for 3 sentences...",
    ["a", "b", "c"], [], "m", "v", "m", "", 0, 0⟩

/-- Concrete `gr.State` values after a three-sentence turn finished. -/
def uiC2 : UIState := ⟨3, 3, false⟩

/-- C2 counterexample: at a concrete post-turn state, after the clear
button's handler runs, `current_status` is the `"Session cleared. Ready.
(...)"` message, not its initial value `""`, and `sentence_end_index` — which
is not among the clear button's outputs — still holds 3, not 0.  So the claim
that both cursor indices return to 0 and the status returns to its initial
value is false. -/
theorem clear_session_claim_counterexample :
    ¬ ((clear_btn_click id stC2 uiC2).1.ui_messages = [] ∧
       (clear_btn_click id stC2 uiC2).1.current_status = initial_status ∧
       (clear_btn_click id stC2 uiC2).2.sentence_index = 0 ∧
       (clear_btn_click id stC2 uiC2).2.sentence_end_index = 0) := by
  decide

/-- C2 (amended): the clear button's handler empties `ui_messages`, sets the
status to the `"Session cleared. Ready. (Model: ..., Voice: ...)"` message
(not back to the initial empty status), resets the start index to 0 and the
active flag to false; the end index of the sentence cursor is not among the
button's outputs and keeps its prior value. -/
theorem clear_btn_click_resets
    (superClear : List String × List Audio → List String × List Audio)
    (st : AppState) (ui : UIState) :
    (clear_btn_click superClear st ui).1.ui_messages = [] ∧
    (clear_btn_click superClear st ui).1.current_status =
      "Session cleared. Ready. (Model: " ++ st.current_model
        ++ ", Voice: " ++ st.current_voice ++ ")" ∧
    (clear_btn_click superClear st ui).2.sentence_index = 0 ∧
    (clear_btn_click superClear st ui).2.processing_active = false ∧
    (clear_btn_click superClear st ui).2.sentence_end_index =
      ui.sentence_end_index := by
  simp [clear_btn_click, clear_session]

/-- C9: `update_system_prompt` is not atomic on error: the stripped prompt is
written to the global `SYSTEM_MESSAGE` before the `AskLLM` constructor runs
and is never rolled back, so on a constructor failure the new prompt stays
while `self.llm` keeps its old value and the method returns normally with the
error-message status; `ui_messages` is unchanged in every case. -/
theorem update_system_prompt_not_atomic
    (mkLLM : String → String → Except String Nat) (st : AppState) (p : String) :
    (update_system_prompt mkLLM st p).ui_messages = st.ui_messages ∧
    (update_system_prompt mkLLM st p).system_message = strip p ∧
    (∀ e, mkLLM st.current_resolved_alias (strip p) = Except.error e →
      (update_system_prompt mkLLM st p).llm = st.llm ∧
      (update_system_prompt mkLLM st p).current_status =
        "Error updating system prompt: " ++ e) := by
  refine ⟨?_, ?_, ?_⟩
  · cases h : mkLLM st.current_resolved_alias (strip p) <;>
      simp [update_system_prompt, h]
  · cases h : mkLLM st.current_resolved_alias (strip p) <;>
      simp [update_system_prompt, h]
  · intro e he
    simp [update_system_prompt, he]

theorem update_system_prompt_not_atomic_witness :
    (update_system_prompt (fun _ _ => Except.error "boom") st0 " x ").ui_messages
      = [] ∧
    (update_system_prompt (fun _ _ => Except.error "boom") st0 " x ").system_message
      = "x" ∧
    (update_system_prompt (fun _ _ => Except.error "boom") st0 " x ").llm = 0 ∧
    (update_system_prompt (fun _ _ => Except.error "boom") st0 " x ").current_status
      = "Error updating system prompt: boom" := by
  have h := update_system_prompt_not_atomic (fun _ _ => Except.error "boom") st0 " x "
  have h2 := h.2.2 "boom" rfl
  exact ⟨h.1.trans (by decide), h.2.1.trans (by decide), h2.1.trans (by decide), h2.2⟩

end WebChat
